import Mathlib

/-!
# Verification of the anonymous-credentials chain and DOM event plugin

Shallow embedding of the credential-acquisition code (class `Authentication`:
`ChainAnonymousCredentialsProvider`, `AnonymousCookieCredentialsProvider`,
`AnonymousCognitoCredentialsProvider`) and of `DomEventPlugin` from the
aws-rum-web sources.

Modelling conventions:

* A JavaScript `Date` is its primitive time value: `some t` with `t` the epoch
  milliseconds for a valid date, `none` for an Invalid Date (time value NaN).
  The JS `<` comparison on dates compares time values and is `false` whenever
  either side is NaN.
* `localStorage` content is modelled at its JSON-denotation level: the stored
  text is either not parseable JSON (`JSON.parse` throws), parses to a
  primitive (`null`, a number, ...; assigning a property to it throws in
  strict mode), or parses to an object whose four credential fields are each
  present or absent.  A stored `expiration` field is modelled by the date
  denotation of `new Date(field)`: absent field gives Invalid Date, an
  unparseable string gives Invalid Date, a well-formed timestamp string gives
  its epoch value.
* Promises are modelled by pure outcomes.  A rejection — whether from an
  explicit `reject()` or from a throw inside the promise executor before the
  promise is settled — is one outcome; a throw after the promise is settled is
  ignored by the Promise machinery and does not change the outcome.
* The two remote clients are oracles (`RemoteOracles`); an execution records
  the list of remote calls issued, in order, together with the resulting
  storage state, so that frame conditions ("no remote call", "storage
  unchanged") are statable.
-/

namespace RumWeb

/-- The time value of a JS `Date`: epoch milliseconds, or `none` for an
Invalid Date (NaN time value). -/
abbrev JSDate := Option Int

/-- JS `<` on two dates: numeric comparison of time values; any comparison
involving NaN is `false`. -/
def dateLt : JSDate → JSDate → Bool
  | some a, some b => a < b
  | _, _ => false

/-- The JSON denotation of a stored credential record (a parsed JSON object).
Each field is `none` when the key is absent from the object.  The
`expiration` field is modelled by the date denotation of
`new Date(field value)`: `some none` for a present but unparseable timestamp
string, `some (some t)` for a timestamp string denoting epoch value `t`. -/
structure StoredCred where
  accessKeyId : Option String
  secretAccessKey : Option String
  sessionToken : Option String
  expiration : Option JSDate
  deriving DecidableEq, Repr

/-- The denotation of the text stored under the credential key. -/
inductive StorageVal where
  /-- Text that is not parseable JSON: `JSON.parse` throws. -/
  | malformed : StorageVal
  /-- Text parsing to a JSON primitive (`null`, a number, a string, a
  boolean): assigning `.expiration` to it throws a `TypeError`. -/
  | primitive : StorageVal
  /-- Text parsing to a JSON object, read as a credential record. -/
  | record : StoredCred → StorageVal
  deriving DecidableEq, Repr

/-- A credential value as it flows through the providers: the parsed record
produced by the cookie provider, or the `assumeRoleWithWebIdentity` response.
Field values are `none` when the underlying JS property is `undefined`. -/
structure JSCred where
  accessKeyId : Option String
  secretAccessKey : Option String
  sessionToken : Option String
  expiration : JSDate
  deriving DecidableEq, Repr

/-- Outcome of the cookie provider's promise: rejected (a cache miss consumed
by the fallback chain) or resolved with a credential. -/
inductive LoadResult where
  | cacheMiss : LoadResult
  | resolved : JSCred → LoadResult
  deriving DecidableEq, Repr

/-- `new Date(credentials.expiration)` applied to the stored field: an absent
field is `undefined`, giving an Invalid Date; a present field yields its date
denotation. -/
def reconstructExpiration : Option JSDate → JSDate
  | none => none
  | some d => d

/-- The credential resolved by the cookie provider from a parsed record: the
record with its `expiration` field overwritten by the reconstructed date. -/
def reconstruct (c : StoredCred) : JSCred :=
  { accessKeyId := c.accessKeyId
    secretAccessKey := c.secretAccessKey
    sessionToken := c.sessionToken
    expiration := reconstructExpiration c.expiration }

/-- `AnonymousCookieCredentialsProvider` (Authentication.ts lines 66–85):
reads `localStorage.getItem(CRED_KEY)`, parses it, reconstructs the
expiration date, and rejects when the reconstructed expiration is `<` now.

Outcome of each branch of the executor:
* absent key: `JSON.parse(null)` parses the text `"null"` to `null`; the
  subsequent property assignment on `null` throws, rejecting the promise;
* unparseable text: `JSON.parse` throws, the catch block calls `reject()`;
  the property assignment on the still-undefined variable then throws, which
  the settled promise ignores;
* a parsed primitive: the property assignment throws, rejecting the promise;
* a parsed record: `reject()` exactly when the reconstructed expiration is
  `<` now (a comparison that is `false` for an Invalid Date); otherwise
  `resolve(credentials)`.  A `resolve` after a `reject` is ignored. -/
def AnonymousCookieCredentialsProvider (storage : Option StorageVal)
    (now : Int) : LoadResult :=
  match storage with
  | none => .cacheMiss
  | some .malformed => .cacheMiss
  | some .primitive => .cacheMiss
  | some (.record c) =>
    if dateLt (reconstructExpiration c.expiration) (some now) then .cacheMiss
    else .resolved (reconstruct c)

/-- The stored-field denotation of `JSON.stringify` applied to the
`expiration` property of a credential: a valid date serializes (via
`Date.prototype.toJSON`) to an ISO timestamp string whose date denotation is
the original time value; an Invalid Date serializes to JSON `null`, and
`new Date(null)` has time value `0`. -/
def serializeDate : JSDate → Option JSDate
  | some t => some (some t)
  | none => some (some 0)

/-- The storage denotation of `JSON.stringify(credentials)` as written by
`localStorage.setItem(CRED_KEY, ...)` (Authentication.ts line 112): a JSON
object with each defined field serialized (an `undefined` property is
omitted by `JSON.stringify`). -/
def storeCred (c : JSCred) : StorageVal :=
  .record
    { accessKeyId := c.accessKeyId
      secretAccessKey := c.secretAccessKey
      sessionToken := c.sessionToken
      expiration := serializeDate c.expiration }

/-- The configuration fields the `Authentication` constructor and the Cognito
provider read (`config.identityPoolId`, `config.guestRoleArn`). -/
structure Config where
  identityPoolId : String
  guestRoleArn : String
  deriving DecidableEq, Repr

/-- Request of `cognitoIdentityClient.getId`. -/
structure GetIdRequest where
  IdentityPoolId : String
  deriving DecidableEq, Repr

/-- Response of `getId`; the whole response object is passed on to
`getOpenIdToken`. -/
structure GetIdResponse where
  IdentityId : String
  deriving DecidableEq, Repr

/-- Response of `cognitoIdentityClient.getOpenIdToken`. -/
structure GetOpenIdTokenResponse where
  Token : String
  deriving DecidableEq, Repr

/-- Request of `stsClient.assumeRoleWithWebIdentity`. -/
structure AssumeRoleRequest where
  RoleArn : String
  RoleSessionName : String
  WebIdentityToken : String
  deriving DecidableEq, Repr

/-- One remote call issued by the Cognito provider, with its request. -/
inductive RemoteCall where
  | getId : GetIdRequest → RemoteCall
  | getOpenIdToken : GetIdResponse → RemoteCall
  | assumeRoleWithWebIdentity : AssumeRoleRequest → RemoteCall
  deriving DecidableEq, Repr

/-- The two remote clients, as oracles: each call either resolves with its
response or rejects. -/
structure RemoteOracles where
  getId : GetIdRequest → Except Unit GetIdResponse
  getOpenIdToken : GetIdResponse → Except Unit GetOpenIdTokenResponse
  assumeRoleWithWebIdentity : AssumeRoleRequest → Except Unit JSCred

instance {ε α : Type} [DecidableEq ε] [DecidableEq α] :
    DecidableEq (Except ε α) := fun a b =>
  match a, b with
  | .error e, .error f =>
    if h : e = f then .isTrue (by rw [h]) else .isFalse (by simp [h])
  | .ok x, .ok y =>
    if h : x = y then .isTrue (by rw [h]) else .isFalse (by simp [h])
  | .error _, .ok _ => .isFalse (by simp)
  | .ok _, .error _ => .isFalse (by simp)

/-- Observable outcome of a provider run: the settled promise value, the
remote calls issued in order, and the resulting storage state. -/
structure ProviderOutcome where
  result : Except Unit JSCred
  calls : List RemoteCall
  storage : Option StorageVal
  deriving DecidableEq, Repr

/-- `AnonymousCognitoCredentialsProvider` (Authentication.ts lines 95–119):
`getId({IdentityPoolId})`, then `getOpenIdToken(getIdResponse)`, then
`assumeRoleWithWebIdentity({RoleArn: guestRoleArn, RoleSessionName: "cwr",
WebIdentityToken: token})`; on success the credential is written to storage
inside a try/catch whose catch ignores the error (`storeFails` says whether
`setItem` throws), and the credential is returned either way.  A rejection of
any step skips the remaining `.then` continuations and settles the whole
chain with that rejection. -/
def AnonymousCognitoCredentialsProvider (config : Config)
    (oracles : RemoteOracles) (storage : Option StorageVal)
    (storeFails : Bool) : ProviderOutcome :=
  let req1 : GetIdRequest := { IdentityPoolId := config.identityPoolId }
  match oracles.getId req1 with
  | .error e => { result := .error e, calls := [.getId req1], storage }
  | .ok getIdResponse =>
    match oracles.getOpenIdToken getIdResponse with
    | .error e =>
      { result := .error e
        calls := [.getId req1, .getOpenIdToken getIdResponse]
        storage }
    | .ok getOpenIdTokenResponse =>
      let req3 : AssumeRoleRequest :=
        { RoleArn := config.guestRoleArn
          RoleSessionName := "cwr"
          WebIdentityToken := getOpenIdTokenResponse.Token }
      match oracles.assumeRoleWithWebIdentity req3 with
      | .error e =>
        { result := .error e
          calls := [.getId req1, .getOpenIdToken getIdResponse,
                    .assumeRoleWithWebIdentity req3]
          storage }
      | .ok credentials =>
        { result := .ok credentials
          calls := [.getId req1, .getOpenIdToken getIdResponse,
                    .assumeRoleWithWebIdentity req3]
          storage :=
            if storeFails then storage else some (storeCred credentials) }

/-- `ChainAnonymousCredentialsProvider` (Authentication.ts lines 55–59):
`AnonymousCookieCredentialsProvider().catch(AnonymousCognitoCredentialsProvider)`.
If the cookie provider resolves, the catch handler never runs (no remote
call, storage untouched); if it rejects, the Cognito provider's outcome is
the outcome of the chain. -/
def ChainAnonymousCredentialsProvider (config : Config)
    (oracles : RemoteOracles) (storage : Option StorageVal) (now : Int)
    (storeFails : Bool) : ProviderOutcome :=
  match AnonymousCookieCredentialsProvider storage now with
  | .resolved c => { result := .ok c, calls := [], storage }
  | .cacheMiss =>
    AnonymousCognitoCredentialsProvider config oracles storage storeFails

/-- JS `String.prototype.split` with a single-character separator, on the
character list: splits at every occurrence of the separator; the result is
never empty (splitting text with no separator yields the one-element list
holding the text). `acc` holds the current segment, reversed. -/
def jsSplitCharAux (sep : Char) : List Char → List Char → List (List Char)
  | acc, [] => [acc.reverse]
  | acc, c :: cs =>
    if c = sep then acc.reverse :: jsSplitCharAux sep [] cs
    else jsSplitCharAux sep (c :: acc) cs

/-- JS `s.split(sep)` for a single-character separator. -/
def jsSplit (s : String) (sep : Char) : List String :=
  (jsSplitCharAux sep [] s.toList).map String.mk

/-- Region derivation in the `Authentication` constructor (line 14):
`config.identityPoolId.split(':')[0]`.  The JS split result is never empty,
so indexing `[0]` is its head. -/
def regionOf (identityPoolId : String) : String :=
  (jsSplit identityPoolId ':').headD ""

/-- The observable initialisation data of a remote client constructed by
`Authentication`: the region it is given. -/
structure ClientInit where
  region : String
  deriving DecidableEq, Repr

/-- The fields the `Authentication` constructor initialises. -/
structure AuthenticationState where
  config : Config
  stsClient : ClientInit
  cognitoIdentityClient : ClientInit
  deriving DecidableEq, Repr

/-- The `Authentication` constructor (lines 13–24): derives the region from
the identity pool id and passes the same region to both the STS client and
the Cognito identity client. -/
def Authentication.construct (config : Config) : AuthenticationState :=
  let region : String := regionOf config.identityPoolId
  { config := config
    stsClient := { region := region }
    cognitoIdentityClient := { region := region } }

/-! ## DomEventPlugin -/

/-- `DOM_EVENT_PLUGIN_ID` constant. -/
def DOM_EVENT_PLUGIN_ID : String := "com.amazonaws.rum.dom-event"

/-- `TargetDomEvent`: event type plus an optional element id or an optional
element (elements are modelled by identity tokens). -/
structure TargetDomEvent where
  event : String
  elementId : Option String
  element : Option Nat
  deriving DecidableEq, Repr

/-- JS truthiness of an optional string property: `undefined` and the empty
string are falsy. -/
def truthyStr : Option String → Bool
  | none => false
  | some s => s ≠ ""

/-- JS truthiness of an optional object property. -/
def truthyObj : Option Nat → Bool
  | none => false
  | some _ => true

/-- A DOM side effect of the plugin: registering or removing a listener
(identified by the token of the closure `getEventListener` returned) on an
element. -/
inductive DomEffect where
  | addListener : Nat → String → Nat → DomEffect
  | removeListener : Nat → String → Nat → DomEffect
  deriving DecidableEq, Repr

/-- The mutable fields of a `DomEventPlugin` instance.  `eventListenerMap` is
the JS `Map` as an association list; `nextListenerId` numbers the fresh
closures produced by `getEventListener`. -/
structure DomEventPluginState where
  pluginId : String
  configuration : List TargetDomEvent
  eventListenerMap : List (TargetDomEvent × Nat)
  enabled : Bool
  nextListenerId : Nat
  deriving DecidableEq, Repr

/-- The `DomEventPlugin` constructor (lines 31–35). -/
def DomEventPlugin.new : DomEventPluginState :=
  { pluginId := DOM_EVENT_PLUGIN_ID
    configuration := []
    eventListenerMap := []
    enabled := true
    nextListenerId := 0 }

/-- JS `Map.prototype.set`: replaces the binding of an existing key,
otherwise appends. -/
def mapSet (m : List (TargetDomEvent × Nat)) (k : TargetDomEvent) (v : Nat) :
    List (TargetDomEvent × Nat) :=
  if m.any (fun p => p.1 = k) then
    m.map (fun p => if p.1 = k then (k, v) else p)
  else m ++ [(k, v)]

/-- JS `Map.prototype.get`. -/
def mapGet (m : List (TargetDomEvent × Nat)) (k : TargetDomEvent) :
    Option Nat :=
  (m.find? (fun p => p.1 = k)).map Prod.snd

/-- JS `Map.prototype.delete` (dropping the returned boolean). -/
def mapDelete (m : List (TargetDomEvent × Nat)) (k : TargetDomEvent) :
    List (TargetDomEvent × Nat) :=
  m.filter (fun p => p.1 ≠ k)

/-- `addEventHandler` (lines 107–119): allocate a fresh listener closure,
record it in the map, and attach it to the element named by `elementId`
(when the document resolves the id; the optional-chaining call does nothing
otherwise) or to the `element` property.  `doc` models
`document.getElementById`. -/
def addEventHandler (doc : String → Option Nat)
    (s : DomEventPluginState) (domEvent : TargetDomEvent) :
    DomEventPluginState × List DomEffect :=
  let eventListener : Nat := s.nextListenerId
  let s' : DomEventPluginState :=
    { s with
      eventListenerMap := mapSet s.eventListenerMap domEvent eventListener
      nextListenerId := s.nextListenerId + 1 }
  if truthyStr domEvent.elementId then
    match doc (domEvent.elementId.getD "") with
    | some el => (s', [.addListener el domEvent.event eventListener])
    | none => (s', [])
  else if truthyObj domEvent.element then
    (s', [.addListener (domEvent.element.getD 0) domEvent.event eventListener])
  else (s', [])

/-- `removeEventHandler` (lines 121–135): look the listener up in the map,
detach it from the element (when the id still resolves), and delete the map
entry. -/
def removeEventHandler (doc : String → Option Nat)
    (s : DomEventPluginState) (domEvent : TargetDomEvent) :
    DomEventPluginState × List DomEffect :=
  let eventListener : Option Nat := mapGet s.eventListenerMap domEvent
  let effects : List DomEffect :=
    match truthyStr domEvent.elementId, eventListener with
    | true, some l =>
      match doc (domEvent.elementId.getD "") with
      | some el => [.removeListener el domEvent.event l]
      | none => []
    | _, _ =>
      match truthyObj domEvent.element, eventListener with
      | true, some l =>
        [.removeListener (domEvent.element.getD 0) domEvent.event l]
      | _, _ => []
  ({ s with eventListenerMap := mapDelete s.eventListenerMap domEvent },
    effects)

/-- `addListeners` (lines 73–75): `config.forEach(addEventHandler)`. -/
def addListeners (doc : String → Option Nat) (s : DomEventPluginState) :
    List TargetDomEvent → DomEventPluginState × List DomEffect
  | [] => (s, [])
  | d :: ds =>
    let (s', effs) := addEventHandler doc s d
    let (s'', effs') := addListeners doc s' ds
    (s'', effs ++ effs')

/-- `removeListeners` (lines 69–71): `config.forEach(removeEventHandler)`. -/
def removeListeners (doc : String → Option Nat) (s : DomEventPluginState) :
    List TargetDomEvent → DomEventPluginState × List DomEffect
  | [] => (s, [])
  | d :: ds =>
    let (s', effs) := removeEventHandler doc s d
    let (s'', effs') := removeListeners doc s' ds
    (s'', effs ++ effs')

/-- `enable` (lines 41–47): early return when already enabled; otherwise add
listeners for the current configuration and set the flag. -/
def DomEventPlugin.enable (doc : String → Option Nat)
    (s : DomEventPluginState) : DomEventPluginState × List DomEffect :=
  if s.enabled then (s, [])
  else
    let (s', effs) := addListeners doc s s.configuration
    ({ s' with enabled := true }, effs)

/-- `disable` (lines 49–55): early return when already disabled; otherwise
remove the listeners of the current configuration and clear the flag. -/
def DomEventPlugin.disable (doc : String → Option Nat)
    (s : DomEventPluginState) : DomEventPluginState × List DomEffect :=
  if s.enabled then
    let (s', effs) := removeListeners doc s s.configuration
    ({ s' with enabled := false }, effs)
  else (s, [])

/-! ## Concrete fixtures used by witness theorems -/

/-- A sample configuration. -/
def sampleConfig : Config :=
  { identityPoolId := "us-west-2:abc-123", guestRoleArn := "arn:guest-role" }

/-- A sample credential as the STS oracle returns it. -/
def sampleCred : JSCred :=
  { accessKeyId := some "AK1", secretAccessKey := some "S1",
    sessionToken := some "T1", expiration := some 99 }

/-- Remote oracles for which all three steps succeed. -/
def sampleOracles : RemoteOracles where
  getId _ := .ok { IdentityId := "id-1" }
  getOpenIdToken r := .ok { Token := r.IdentityId ++ "-token" }
  assumeRoleWithWebIdentity _ := .ok sampleCred

/-- Remote oracles whose first step rejects. -/
def failingGetIdOracles : RemoteOracles where
  getId _ := .error ()
  getOpenIdToken r := .ok { Token := r.IdentityId ++ "-token" }
  assumeRoleWithWebIdentity _ := .ok sampleCred

/-- Remote oracles whose third step rejects. -/
def failingStsOracles : RemoteOracles where
  getId _ := .ok { IdentityId := "id-1" }
  getOpenIdToken r := .ok { Token := r.IdentityId ++ "-token" }
  assumeRoleWithWebIdentity _ := .error ()

/-- A stored record whose `expiration` field is absent. -/
def sampleNoExpCred : StoredCred :=
  { accessKeyId := some "AK", secretAccessKey := some "S",
    sessionToken := some "T", expiration := none }

/-- A stored record expiring at epoch millisecond 10. -/
def sampleStoredCred : StoredCred :=
  { accessKeyId := some "AK", secretAccessKey := some "S",
    sessionToken := some "T", expiration := some (some 10) }

/-- The `assumeRoleWithWebIdentity` request built by a run against
`sampleOracles` with `sampleConfig`. -/
def sampleAssumeRoleReq : AssumeRoleRequest :=
  { RoleArn := "arn:guest-role", RoleSessionName := "cwr",
    WebIdentityToken := "id-1-token" }

/-- A plugin state that is disabled. -/
def sampleDisabledPlugin : DomEventPluginState :=
  { DomEventPlugin.new with enabled := false }

end RumWeb

namespace RumWeb

/-! ## Claim theorems -/

/-- C1, counterexample: the claim says a stored record whose expiration
field is missing is treated as a cache miss; on the code, `new
Date(undefined)` is an Invalid Date, the comparison `InvalidDate < now` is
`false`, so `AnonymousCookieCredentialsProvider` resolves with the
credential instead of rejecting. -/
theorem c1_missing_expiration_not_a_miss :
    AnonymousCookieCredentialsProvider
        (some (.record { accessKeyId := some "AK", secretAccessKey := some "S",
                         sessionToken := some "T", expiration := none })) 0
      = .resolved { accessKeyId := some "AK", secretAccessKey := some "S",
                    sessionToken := some "T", expiration := none }
    ∧ AnonymousCookieCredentialsProvider
        (some (.record { accessKeyId := some "AK", secretAccessKey := some "S",
                         sessionToken := some "T", expiration := none })) 0
      ≠ .cacheMiss := by
  constructor <;> decide

/-- C1 (amended): the cache load never raises to its caller and yields a
cache miss for an absent key, non-JSON text, parsed primitives, and a
reconstructed expiration strictly before now; but a record whose expiration
field is missing or unparseable (reconstructing to an Invalid Date) is
resolved with the credential, not treated as a miss. -/
theorem c1_load_failure_normalization (now : Int) (c : StoredCred) :
    AnonymousCookieCredentialsProvider none now = .cacheMiss
    ∧ AnonymousCookieCredentialsProvider (some .malformed) now = .cacheMiss
    ∧ AnonymousCookieCredentialsProvider (some .primitive) now = .cacheMiss
    ∧ (dateLt (reconstructExpiration c.expiration) (some now) = true →
        AnonymousCookieCredentialsProvider (some (.record c)) now = .cacheMiss)
    ∧ (reconstructExpiration c.expiration = none →
        AnonymousCookieCredentialsProvider (some (.record c)) now
          = .resolved (reconstruct c)) := by
  refine ⟨rfl, rfl, rfl, fun h => ?_, fun h => ?_⟩
  · simp [AnonymousCookieCredentialsProvider, h]
  · simp [AnonymousCookieCredentialsProvider, h, dateLt]

/-- C1 witness: the amended theorem applied at concrete inputs — an expired
record misses; a record without an expiration field resolves. -/
theorem c1_load_failure_normalization_witness :
    AnonymousCookieCredentialsProvider (some (.record sampleStoredCred)) 50
      = .cacheMiss
    ∧ AnonymousCookieCredentialsProvider (some (.record sampleNoExpCred)) 0
      = .resolved (reconstruct sampleNoExpCred) :=
  ⟨(c1_load_failure_normalization 50 sampleStoredCred).2.2.2.1 (by decide),
   (c1_load_failure_normalization 0 sampleNoExpCred).2.2.2.2 (by decide)⟩

/-- C3, counterexample: the claim says a credential whose expiration is at
(not strictly after) the current time yields a cache miss; on the code the
strict comparison `expiration < now` is `false` when the two are equal, so
the credential is resolved. -/
theorem c3_expiration_equal_now_resolves :
    AnonymousCookieCredentialsProvider
        (some (.record { accessKeyId := some "AK", secretAccessKey := some "S",
                         sessionToken := some "T",
                         expiration := some (some 0) })) 0
      ≠ .cacheMiss := by decide

/-- C3 (amended): for a stored record with a well-formed expiration `t`, the
load resolves with the credential exactly when `now ≤ t` (expiration not
strictly before now), and misses exactly when `t < now`; the boundary case
`t = now` resolves. -/
theorem c3_load_fresh_iff (c : StoredCred) (t now : Int)
    (h : c.expiration = some (some t)) :
    (AnonymousCookieCredentialsProvider (some (.record c)) now
        = .resolved (reconstruct c) ↔ now ≤ t)
    ∧ (AnonymousCookieCredentialsProvider (some (.record c)) now
        = .cacheMiss ↔ t < now) := by
  simp [AnonymousCookieCredentialsProvider, reconstructExpiration, h, dateLt]

/-- C3 witness: the amended theorem applied to a record expiring at 10,
loaded at time 0. -/
theorem c3_load_fresh_iff_witness :
    AnonymousCookieCredentialsProvider (some (.record sampleStoredCred)) 0
      = .resolved (reconstruct sampleStoredCred) :=
  ((c3_load_fresh_iff sampleStoredCred 10 0 rfl).1).mpr (by omega)

/-- C2: when the cache misses and every remote step succeeds,
`getCredentials` issues exactly `getId`, then `getOpenIdToken` on the first
response, then `assumeRoleWithWebIdentity` on the second response's token,
in that order, and returns the third step's response unchanged. -/
theorem c2_remote_exchange_in_order (config : Config)
    (oracles : RemoteOracles) (storage : Option StorageVal) (now : Int)
    (storeFails : Bool) (r1 : GetIdResponse) (r2 : GetOpenIdTokenResponse)
    (cred : JSCred)
    (hmiss : AnonymousCookieCredentialsProvider storage now = .cacheMiss)
    (h1 : oracles.getId { IdentityPoolId := config.identityPoolId } = .ok r1)
    (h2 : oracles.getOpenIdToken r1 = .ok r2)
    (h3 : oracles.assumeRoleWithWebIdentity
        { RoleArn := config.guestRoleArn, RoleSessionName := "cwr",
          WebIdentityToken := r2.Token } = .ok cred) :
    (ChainAnonymousCredentialsProvider config oracles storage now
        storeFails).result = .ok cred
    ∧ (ChainAnonymousCredentialsProvider config oracles storage now
        storeFails).calls
      = [.getId { IdentityPoolId := config.identityPoolId },
         .getOpenIdToken r1,
         .assumeRoleWithWebIdentity
           { RoleArn := config.guestRoleArn, RoleSessionName := "cwr",
             WebIdentityToken := r2.Token }] := by
  simp [ChainAnonymousCredentialsProvider,
        AnonymousCognitoCredentialsProvider, hmiss, h1, h2, h3]

/-- C2 witness: a run on empty storage against all-succeeding oracles. -/
theorem c2_remote_exchange_in_order_witness :
    (ChainAnonymousCredentialsProvider sampleConfig sampleOracles none 0
        false).result = .ok sampleCred
    ∧ (ChainAnonymousCredentialsProvider sampleConfig sampleOracles none 0
        false).calls
      = [.getId { IdentityPoolId := "us-west-2:abc-123" },
         .getOpenIdToken { IdentityId := "id-1" },
         .assumeRoleWithWebIdentity sampleAssumeRoleReq] :=
  c2_remote_exchange_in_order sampleConfig sampleOracles none 0 false
    { IdentityId := "id-1" } { Token := "id-1-token" } sampleCred
    rfl rfl rfl rfl

/-- C4: when the cache holds a currently-valid credential, the chain returns
it, issues no remote call, and leaves storage untouched. -/
theorem c4_cache_hit_no_remote_calls (config : Config)
    (oracles : RemoteOracles) (storage : Option StorageVal) (now : Int)
    (storeFails : Bool) (c : StoredCred) (t : Int)
    (hstore : storage = some (.record c))
    (hexp : c.expiration = some (some t)) (hfresh : now < t) :
    ChainAnonymousCredentialsProvider config oracles storage now storeFails
      = { result := .ok (reconstruct c), calls := [], storage := storage } := by
  have hload : AnonymousCookieCredentialsProvider storage now
      = .resolved (reconstruct c) := by
    simp [AnonymousCookieCredentialsProvider, hstore, reconstructExpiration,
          hexp, dateLt]
    omega
  simp [ChainAnonymousCredentialsProvider, hload]

/-- C4 witness: a record expiring at 10, fetched at time 0, is returned with
no remote calls. -/
theorem c4_cache_hit_no_remote_calls_witness :
    ChainAnonymousCredentialsProvider sampleConfig sampleOracles
        (some (.record sampleStoredCred)) 0 false
      = { result := .ok (reconstruct sampleStoredCred), calls := [],
          storage := some (.record sampleStoredCred) } :=
  c4_cache_hit_no_remote_calls sampleConfig sampleOracles
    (some (.record sampleStoredCred)) 0 false sampleStoredCred 10
    rfl rfl (by omega)

/-- C5: when the cache misses, a rejection of any of the three remote steps
rejects the whole `getCredentials` call and leaves storage unchanged — no
credential record is written. -/
theorem c5_failed_exchange_rejects_storage_unchanged (config : Config)
    (oracles : RemoteOracles) (storage : Option StorageVal) (now : Int)
    (storeFails : Bool)
    (hmiss : AnonymousCookieCredentialsProvider storage now = .cacheMiss) :
    (∀ e : Unit,
      oracles.getId { IdentityPoolId := config.identityPoolId } = .error e →
      ChainAnonymousCredentialsProvider config oracles storage now storeFails
        = { result := .error e,
            calls := [.getId { IdentityPoolId := config.identityPoolId }],
            storage := storage })
    ∧ (∀ (r1 : GetIdResponse) (e : Unit),
      oracles.getId { IdentityPoolId := config.identityPoolId } = .ok r1 →
      oracles.getOpenIdToken r1 = .error e →
      ChainAnonymousCredentialsProvider config oracles storage now storeFails
        = { result := .error e,
            calls := [.getId { IdentityPoolId := config.identityPoolId },
                      .getOpenIdToken r1],
            storage := storage })
    ∧ (∀ (r1 : GetIdResponse) (r2 : GetOpenIdTokenResponse) (e : Unit),
      oracles.getId { IdentityPoolId := config.identityPoolId } = .ok r1 →
      oracles.getOpenIdToken r1 = .ok r2 →
      oracles.assumeRoleWithWebIdentity
          { RoleArn := config.guestRoleArn, RoleSessionName := "cwr",
            WebIdentityToken := r2.Token } = .error e →
      ChainAnonymousCredentialsProvider config oracles storage now storeFails
        = { result := .error e,
            calls := [.getId { IdentityPoolId := config.identityPoolId },
                      .getOpenIdToken r1,
                      .assumeRoleWithWebIdentity
                        { RoleArn := config.guestRoleArn,
                          RoleSessionName := "cwr",
                          WebIdentityToken := r2.Token }],
            storage := storage }) := by
  refine ⟨fun e h1 => ?_, fun r1 e h1 h2 => ?_, fun r1 r2 e h1 h2 h3 => ?_⟩
  · simp [ChainAnonymousCredentialsProvider,
          AnonymousCognitoCredentialsProvider, hmiss, h1]
  · simp [ChainAnonymousCredentialsProvider,
          AnonymousCognitoCredentialsProvider, hmiss, h1, h2]
  · simp [ChainAnonymousCredentialsProvider,
          AnonymousCognitoCredentialsProvider, hmiss, h1, h2, h3]

/-- C5 witness: on empty storage, a failing first step and a failing third
step each reject the chain and leave storage empty. -/
theorem c5_failed_exchange_rejects_storage_unchanged_witness :
    ChainAnonymousCredentialsProvider sampleConfig failingGetIdOracles none 0
        false
      = { result := .error (),
          calls := [.getId { IdentityPoolId := "us-west-2:abc-123" }],
          storage := none }
    ∧ ChainAnonymousCredentialsProvider sampleConfig failingStsOracles none 0
        false
      = { result := .error (),
          calls := [.getId { IdentityPoolId := "us-west-2:abc-123" },
                    .getOpenIdToken { IdentityId := "id-1" },
                    .assumeRoleWithWebIdentity sampleAssumeRoleReq],
          storage := none } :=
  ⟨(c5_failed_exchange_rejects_storage_unchanged sampleConfig
      failingGetIdOracles none 0 false rfl).1 () rfl,
   (c5_failed_exchange_rejects_storage_unchanged sampleConfig
      failingStsOracles none 0 false rfl).2.2 { IdentityId := "id-1" }
      { Token := "id-1-token" } () rfl rfl rfl⟩

/-- C6: storing a credential whose expiration is a valid date strictly in
the future at load time and then loading round-trips: the load resolves with
a field-for-field equal credential. -/
theorem c6_store_load_roundtrip (c : JSCred) (t now : Int)
    (hexp : c.expiration = some t) (hfresh : now < t) :
    AnonymousCookieCredentialsProvider (some (storeCred c)) now
      = .resolved c := by
  have hni : ¬ t < now := by omega
  simp [AnonymousCookieCredentialsProvider, storeCred, serializeDate, hexp,
        reconstructExpiration, dateLt, reconstruct, hni]
  cases c
  simp_all

/-- C6 witness: the round-trip at a concrete credential expiring at 99,
loaded at time 7. -/
theorem c6_store_load_roundtrip_witness :
    AnonymousCookieCredentialsProvider (some (storeCred sampleCred)) 7
      = .resolved sampleCred :=
  c6_store_load_roundtrip sampleCred 99 7 rfl (by omega)

/-- C7: when all three remote steps succeed and the storage write throws,
the exception is swallowed: the provider still resolves with the fresh
credential and storage is unchanged. -/
theorem c7_store_failure_swallowed (config : Config)
    (oracles : RemoteOracles) (storage : Option StorageVal)
    (r1 : GetIdResponse) (r2 : GetOpenIdTokenResponse) (cred : JSCred)
    (h1 : oracles.getId { IdentityPoolId := config.identityPoolId } = .ok r1)
    (h2 : oracles.getOpenIdToken r1 = .ok r2)
    (h3 : oracles.assumeRoleWithWebIdentity
        { RoleArn := config.guestRoleArn, RoleSessionName := "cwr",
          WebIdentityToken := r2.Token } = .ok cred) :
    AnonymousCognitoCredentialsProvider config oracles storage true
      = { result := .ok cred,
          calls := [.getId { IdentityPoolId := config.identityPoolId },
                    .getOpenIdToken r1,
                    .assumeRoleWithWebIdentity
                      { RoleArn := config.guestRoleArn,
                        RoleSessionName := "cwr",
                        WebIdentityToken := r2.Token }],
          storage := storage } := by
  simp [AnonymousCognitoCredentialsProvider, h1, h2, h3]

/-- C7 witness: a failing write on a successful exchange still returns the
fresh credential and leaves the (empty) storage empty. -/
theorem c7_store_failure_swallowed_witness :
    AnonymousCognitoCredentialsProvider sampleConfig sampleOracles none true
      = { result := .ok sampleCred,
          calls := [.getId { IdentityPoolId := "us-west-2:abc-123" },
                    .getOpenIdToken { IdentityId := "id-1" },
                    .assumeRoleWithWebIdentity sampleAssumeRoleReq],
          storage := none } :=
  c7_store_failure_swallowed sampleConfig sampleOracles none
    { IdentityId := "id-1" } { Token := "id-1-token" } sampleCred rfl rfl rfl

/-- Splitting at the first separator occurrence: when the prefix `r` is free
of the separator, the first produced segment is the pending accumulator
followed by `r`. -/
theorem jsSplitCharAux_first_sep (sep : Char) (u : List Char) :
    ∀ r acc : List Char, sep ∉ r →
      jsSplitCharAux sep acc (r ++ sep :: u)
        = (acc.reverse ++ r) :: jsSplitCharAux sep [] u := by
  intro r
  induction r with
  | nil => intro acc _; simp [jsSplitCharAux]
  | cons c cs ih =>
    intro acc h
    have hc : ¬ c = sep := fun hcc => h (by simp [hcc])
    have hcs : sep ∉ cs := fun hmem => h (List.mem_cons_of_mem c hmem)
    simp only [List.cons_append, jsSplitCharAux, if_neg hc, List.append_eq]
    rw [ih (c :: acc) hcs]
    simp

/-- Rebuilding a string from its character list is the identity. -/
theorem stringMk_toList (s : String) : String.mk s.toList = s := rfl

/-- C8: for an identity pool id of the form `<region>:<uuid>` whose region
part has no colon, the `Authentication` constructor hands exactly that
region to both the STS client and the Cognito identity client. -/
theorem c8_region_first_segment (r u arn : String) (h : ':' ∉ r.toList) :
    (Authentication.construct
        { identityPoolId := r ++ ":" ++ u, guestRoleArn := arn
          }).stsClient.region = r
    ∧ (Authentication.construct
        { identityPoolId := r ++ ":" ++ u, guestRoleArn := arn
          }).cognitoIdentityClient.region = r := by
  have hlist : (r ++ ":" ++ u).toList = r.toList ++ ':' :: u.toList := by
    simp [String.toList, String.data_append]
  have hsplit : jsSplit (r ++ ":" ++ u) ':'
      = String.mk r.toList :: (jsSplitCharAux ':' [] u.toList).map String.mk := by
    unfold jsSplit
    rw [hlist, jsSplitCharAux_first_sep ':' u.toList r.toList [] h]
    simp
  have hregion : regionOf (r ++ ":" ++ u) = r := by
    simp [regionOf, hsplit, stringMk_toList]
  exact ⟨by simp [Authentication.construct, hregion],
         by simp [Authentication.construct, hregion]⟩

/-- C8 witness: the constructor on the pool id "us-west-2:abc-123". -/
theorem c8_region_first_segment_witness :
    (Authentication.construct
        { identityPoolId := "us-west-2" ++ ":" ++ "abc-123",
          guestRoleArn := "arn:guest-role" }).stsClient.region = "us-west-2"
    ∧ (Authentication.construct
        { identityPoolId := "us-west-2" ++ ":" ++ "abc-123",
          guestRoleArn := "arn:guest-role"
          }).cognitoIdentityClient.region = "us-west-2" :=
  c8_region_first_segment "us-west-2" "abc-123" "arn:guest-role" (by decide)

/-- C9: every `assumeRoleWithWebIdentity` call a chain run ever issues
carries the fixed role session name "cwr" and the configured guest role ARN,
whatever the oracles, storage and clock do. -/
theorem c9_assume_role_request_fixed (config : Config)
    (oracles : RemoteOracles) (storage : Option StorageVal) (now : Int)
    (storeFails : Bool) (req : AssumeRoleRequest)
    (hmem : RemoteCall.assumeRoleWithWebIdentity req
      ∈ (ChainAnonymousCredentialsProvider config oracles storage now
          storeFails).calls) :
    req.RoleSessionName = "cwr" ∧ req.RoleArn = config.guestRoleArn := by
  cases hload : AnonymousCookieCredentialsProvider storage now with
  | resolved c =>
    have hc : (ChainAnonymousCredentialsProvider config oracles storage now
        storeFails).calls = [] := by
      simp [ChainAnonymousCredentialsProvider, hload]
    rw [hc] at hmem
    simp at hmem
  | cacheMiss =>
    cases h1 : oracles.getId { IdentityPoolId := config.identityPoolId } with
    | error e =>
      have hc : (ChainAnonymousCredentialsProvider config oracles storage now
          storeFails).calls
          = [.getId { IdentityPoolId := config.identityPoolId }] := by
        simp [ChainAnonymousCredentialsProvider,
              AnonymousCognitoCredentialsProvider, hload, h1]
      rw [hc] at hmem
      simp at hmem
    | ok r1 =>
      cases h2 : oracles.getOpenIdToken r1 with
      | error e =>
        have hc : (ChainAnonymousCredentialsProvider config oracles storage
            now storeFails).calls
            = [.getId { IdentityPoolId := config.identityPoolId },
               .getOpenIdToken r1] := by
          simp [ChainAnonymousCredentialsProvider,
                AnonymousCognitoCredentialsProvider, hload, h1, h2]
        rw [hc] at hmem
        simp at hmem
      | ok r2 =>
        cases h3 : oracles.assumeRoleWithWebIdentity
            { RoleArn := config.guestRoleArn, RoleSessionName := "cwr",
              WebIdentityToken := r2.Token } with
        | error e =>
          have hc : (ChainAnonymousCredentialsProvider config oracles storage
              now storeFails).calls
              = [.getId { IdentityPoolId := config.identityPoolId },
                 .getOpenIdToken r1,
                 .assumeRoleWithWebIdentity
                   { RoleArn := config.guestRoleArn,
                     RoleSessionName := "cwr",
                     WebIdentityToken := r2.Token }] := by
            simp [ChainAnonymousCredentialsProvider,
                  AnonymousCognitoCredentialsProvider, hload, h1, h2, h3]
          rw [hc] at hmem
          simp at hmem
          simp [hmem]
        | ok cred =>
          have hc : (ChainAnonymousCredentialsProvider config oracles storage
              now storeFails).calls
              = [.getId { IdentityPoolId := config.identityPoolId },
                 .getOpenIdToken r1,
                 .assumeRoleWithWebIdentity
                   { RoleArn := config.guestRoleArn,
                     RoleSessionName := "cwr",
                     WebIdentityToken := r2.Token }] := by
            simp [ChainAnonymousCredentialsProvider,
                  AnonymousCognitoCredentialsProvider, hload, h1, h2, h3]
          rw [hc] at hmem
          simp at hmem
          simp [hmem]

/-- C9 witness: the request issued by a concrete run on empty storage. -/
theorem c9_assume_role_request_fixed_witness :
    sampleAssumeRoleReq.RoleSessionName = "cwr"
    ∧ sampleAssumeRoleReq.RoleArn = sampleConfig.guestRoleArn :=
  c9_assume_role_request_fixed sampleConfig sampleOracles none 0 false
    sampleAssumeRoleReq (by decide)

/-- C10: the plugin is constructed enabled; `enable` on an enabled plugin
returns the state unchanged and performs no DOM effect, and `disable` on a
disabled plugin returns the state unchanged and performs no DOM effect. -/
theorem c10_enable_disable_idempotent (doc : String → Option Nat)
    (s : DomEventPluginState) :
    DomEventPlugin.new.enabled = true
    ∧ (s.enabled = true → DomEventPlugin.enable doc s = (s, []))
    ∧ (s.enabled = false → DomEventPlugin.disable doc s = (s, [])) := by
  refine ⟨rfl, fun h => ?_, fun h => ?_⟩
  · simp [DomEventPlugin.enable, h]
  · simp [DomEventPlugin.disable, h]

/-- C10 witness: `enable` on the freshly constructed (enabled) plugin and
`disable` on a disabled plugin are both no-ops. -/
theorem c10_enable_disable_idempotent_witness :
    DomEventPlugin.enable (fun _ => none) DomEventPlugin.new
      = (DomEventPlugin.new, [])
    ∧ DomEventPlugin.disable (fun _ => none) sampleDisabledPlugin
      = (sampleDisabledPlugin, []) :=
  ⟨(c10_enable_disable_idempotent (fun _ => none) DomEventPlugin.new).2.1 rfl,
   (c10_enable_disable_idempotent (fun _ => none) sampleDisabledPlugin).2.2
     rfl⟩

end RumWeb
